import Mathlib

/-!
Verification of the AFSysBench resource-aware benchmark execution engine.

The Python sources are shallowly embedded:
* `src/lib/gpu_memory_manager.py` — memory estimation, sizing decision,
  unified-memory environment, OOM detection;
* `src/af_bench_runner_updated.py` — command construction, stage timeouts,
  environment merging, structured results vs. exceptions;
* `src/track_progress.py` and `src/analyze_statistical_data.py` — the
  statistical aggregation over successful run durations.

Python floats are modelled by `ℚ` (all concrete inputs used below were chosen
so that IEEE-754 double evaluation and exact rational evaluation agree),
Python `int()` truncation by `pyInt`, fallible OS access (`os.path.getsize`,
`open`) by an explicit `Option`-valued file-system oracle, and exceptions by
`Except`.
-/

namespace AFSysBench

/-! ## Python string membership (`pat in s`) -/

/-- Does the character list `s` start with `pat`? -/
def startsWithL (pat : List Char) (s : List Char) : Bool :=
  match pat, s with
  | [], _ => true
  | _ :: _, [] => false
  | p :: ps, c :: cs => p == c && startsWithL ps cs

/-- Python substring membership `pat in s` on character lists. -/
def hasSub (pat : List Char) : List Char → Bool
  | [] => startsWithL pat []
  | c :: rest => startsWithL pat (c :: rest) || hasSub pat rest

/-- Python substring membership `pat in s` on strings. -/
def strContains (s pat : String) : Bool :=
  hasSub pat.data s.data

theorem hasSub_append_right (pat l₁ l₂ : List Char)
    (h : hasSub pat l₂ = true) : hasSub pat (l₁ ++ l₂) = true := by
  induction l₁ with
  | nil => simpa using h
  | cons c cs ih =>
    rw [List.cons_append, hasSub]
    exact Bool.or_eq_true_iff.mpr (Or.inr ih)

/-! ## `pathlib.Path(...).stem` -/

/-- Split a character list on `'/'`. -/
def splitSlash : List Char → List (List Char)
  | [] => [[]]
  | c :: rest =>
    match splitSlash rest with
    | [] => [[]]
    | cur :: parts =>
      if c == '/' then [] :: cur :: parts else (c :: cur) :: parts

/-- `os.path`-style last component: `Path(s).name` (ignoring empty
components produced by repeated or trailing slashes). -/
def pathName (s : String) : String :=
  String.mk (((splitSlash s.data).filter (fun c => c ≠ [])).getLastD [])

/-- Index of the last `'.'` in a character list (Python `str.rfind('.')`,
with `none` standing for `-1`). -/
def rfindDot : List Char → Option Nat
  | [] => none
  | c :: rest =>
    match rfindDot rest with
    | some j => some (j + 1)
    | none => if c == '.' then some 0 else none

/-- `pathlib.PurePath.stem`: the final component without its suffix; the
suffix only exists when the last dot is neither the first nor the last
character of the name. -/
def pathStem (s : String) : String :=
  let name := pathName s
  let l := name.data
  match rfindDot l with
  | some i => if 0 < i ∧ i < l.length - 1 then String.mk (l.take i) else name
  | none => name

/-! ## Python `int()` on a nonnegative rational -/

/-- Python `int(q)` for a rational `q`: truncation toward zero. -/
def pyInt (q : ℚ) : ℤ :=
  if q < 0 then ⌈q⌉ else ⌊q⌋

theorem pyInt_of_nonneg {q : ℚ} (h : 0 ≤ q) : pyInt q = ⌊q⌋ := by
  simp [pyInt, not_lt.mpr h]

theorem pyInt_nonneg {q : ℚ} (h : 0 ≤ q) : 0 ≤ pyInt q := by
  rw [pyInt_of_nonneg h]
  exact Int.le_floor.mpr (by exact_mod_cast h)

/-! ## `GPUMemoryManager` (src/lib/gpu_memory_manager.py) -/

/-- The static `MEMORY_REQUIREMENTS` table of `GPUMemoryManager`:
known per-input memory requirements in MB. -/
def MEMORY_REQUIREMENTS : List (String × ℤ) :=
  [("6QNR_subset_data", 24000),
   ("promo_data", 8000),
   ("promo_data_seed1", 8000),
   ("2pv7_data", 4000),
   ("1yy9_data", 6000),
   ("rcsb_pdb_7rce_data", 6000)]

/-- A file-system oracle: `fs path = some n` means `os.path.getsize path`
returns `n` bytes, `none` means it raises `OSError`. -/
def SizeOracle := String → Option ℕ

/-- `GPUMemoryManager.estimate_memory_requirement`: table hit on the stem,
else `int(file_size_mb * 1000)` with `file_size_mb = size / (1024*1024)`,
else the 8000 MB default when the file cannot be stat'ed. -/
def estimate_memory_requirement (fs : SizeOracle) (input_file : String) : ℤ :=
  let base_name := pathStem input_file
  match MEMORY_REQUIREMENTS.lookup base_name with
  | some v => v
  | none =>
    match fs input_file with
    | some size => pyInt ((size : ℚ) / (1024 * 1024) * 1000)
    | none => 8000

/-- The `info` dictionary returned by `needs_unified_memory`. -/
structure MemoryInfo where
  gpu_memory_mb : ℤ
  required_memory_mb : ℤ
  required_with_safety_mb : ℤ
  safety_factor : ℚ
  deriving Repr, DecidableEq

/-- `GPUMemoryManager.needs_unified_memory`. The capacity probe
(`get_gpu_memory_mb`, a cached `nvidia-smi` query returning `0` when
undetectable) is passed in as `gpu_mem`. -/
def needs_unified_memory (safety_factor : ℚ) (gpu_mem : ℕ)
    (fs : SizeOracle) (input_file : String) : Bool × MemoryInfo :=
  let required_mem := estimate_memory_requirement fs input_file
  let required_with_safety := pyInt ((required_mem : ℚ) * safety_factor)
  let info : MemoryInfo :=
    { gpu_memory_mb := (gpu_mem : ℤ)
      required_memory_mb := required_mem
      required_with_safety_mb := required_with_safety
      safety_factor := safety_factor }
  if (gpu_mem : ℤ) = 0 then (false, info)
  else (decide (required_with_safety > (gpu_mem : ℤ)), info)

/-- `GPUMemoryManager.get_unified_memory_env`: the fixed three
unified-memory override variables. -/
def get_unified_memory_env : List (String × String) :=
  [("XLA_PYTHON_CLIENT_PREALLOCATE", "false"),
   ("TF_FORCE_UNIFIED_MEMORY", "true"),
   ("XLA_CLIENT_MEM_FRACTION", "3.2")]

/-- The fixed OOM signature list of `GPUMemoryManager.check_oom_error`. -/
def oom_patterns : List String :=
  ["CUDA_ERROR_OUT_OF_MEMORY",
   "CUDA out of memory",
   "OOM when allocating tensor",
   "ResourceExhaustedError",
   "failed to allocate.*memory",
   "GPU memory allocation failed"]

/-- The scanning loop of `check_oom_error`: `pattern in content` for each
pattern, true on first match. -/
def check_oom_content (content : String) : Bool :=
  oom_patterns.any (fun pattern => strContains content pattern)

/-- A read oracle: `some content` means `open(log).read()` yields
`content`; `none` means opening or reading raises `IOError`. -/
def ReadOracle := String → Option String

/-- `GPUMemoryManager.check_oom_error`: scan the log file, swallowing
`IOError` (`except IOError: pass`) and returning `False`. -/
def check_oom_error (fs : ReadOracle) (log_file : String) : Bool :=
  match fs log_file with
  | some content => check_oom_content content
  | none => false

/-! ## `AFBenchRunner` (src/af_bench_runner_updated.py) -/

/-- `os.path.join` for a directory and a relative file name. -/
def joinPath (dir name : String) : String := dir ++ "/" ++ name

/-- The `script_mapping` dictionary of `AFBenchRunner._get_script_path`. -/
def script_mapping (script_name : String) : Option String :=
  if script_name == "benchmark_msa.sh" then some "benchmark_msa_modular.sh"
  else if script_name == "benchmark_inference.sh" then
    some "benchmark_inference_modular.sh"
  else none

/-- `AFBenchRunner._get_script_path`: prefer the modular script in the
scripts directory, then the plain name in the scripts directory, then the
base directory; `none` models the final `FileNotFoundError`. The
file-system existence check `os.path.exists` is the oracle `pathExists`. -/
def get_script_path (pathExists : String → Bool)
    (scripts_dir base_dir script_name : String) : Option String :=
  let modular :=
    match script_mapping script_name with
    | some m =>
      let p := joinPath scripts_dir m
      if pathExists p then some p else none
    | none => none
  match modular with
  | some p => some p
  | none =>
    let p1 := joinPath scripts_dir script_name
    if pathExists p1 then some p1
    else
      let p2 := joinPath base_dir script_name
      if pathExists p2 then some p2 else none

/-- The timeout selection in `AFBenchRunner._run_command`:
`any("inference" in str(arg) for arg in cmd)` chooses 7200 s, else 3600 s. -/
def timeout_seconds (cmd : List String) : ℕ :=
  if cmd.any (fun arg => strContains arg "inference") then 7200 else 3600

/-- Python truthiness of an `Optional[str]` (`None` and `""` are falsy). -/
def truthyStr : Option String → Bool
  | some s => s != ""
  | none => false

/-- Python truthiness of an `Optional[int]` (`None` and `0` are falsy). -/
def truthyNat : Option ℕ → Bool
  | some n => n != 0
  | none => false

/-- Python truthiness of an `Optional[List[int]]` (`None` and `[]` falsy). -/
def truthyList : Option (List ℕ) → Bool
  | some l => l != ([] : List ℕ)
  | none => false

/-- The `-t` arguments: `["-t", " ".join(map(str, thread_counts))]` when the
thread-count list is truthy. -/
def threadArgs (thread_counts : Option (List ℕ)) : List String :=
  if truthyList thread_counts then
    ["-t", String.intercalate " " ((thread_counts.getD []).map toString)]
  else []

/-- The `-o` arguments when an output directory is given. -/
def outputArgs (output_dir : Option String) : List String :=
  if truthyStr output_dir then ["-o", output_dir.getD ""] else []

/-- `s.startswith(pat)` on strings. -/
def pyStartsWith (s pat : String) : Bool :=
  startsWithL pat.data s.data

/-- Input-path auto-prefixing in `run_msa_benchmark`. -/
def msa_full_input_path (input_file : String) : String :=
  if ¬ pyStartsWith input_file "input_msa/" ∧ ¬ pyStartsWith input_file "/"
  then "input_msa/" ++ input_file
  else input_file

/-- Input-path auto-prefixing in `run_inference_benchmark`. -/
def inference_full_input_path (input_file : String) : String :=
  if ¬ pyStartsWith input_file "input_inference/" ∧ ¬ pyStartsWith input_file "/"
  then "input_inference/" ++ input_file
  else input_file

/-- The command list built by `AFBenchRunner.run_msa_benchmark`. -/
def build_msa_cmd (script_path config_file : String)
    (thread_counts : Option (List ℕ)) (output_dir : Option String)
    (input_file : String) : List String :=
  [script_path, "-c", config_file] ++ threadArgs thread_counts
    ++ outputArgs output_dir ++ [msa_full_input_path input_file]

/-- The command list built by `AFBenchRunner.run_inference_benchmark`. -/
def build_inference_cmd (script_path config_file : String)
    (thread_counts : Option (List ℕ)) (enable_nsys : Bool)
    (num_models : Option ℕ) (output_dir : Option String)
    (input_file : String) : List String :=
  [script_path, "-c", config_file] ++ threadArgs thread_counts
    ++ (if enable_nsys then ["-n"] else [])
    ++ (if truthyNat num_models then ["-m", toString (num_models.getD 0)] else [])
    ++ outputArgs output_dir ++ [inference_full_input_path input_file]

/-- A process environment: variable name to optional value. -/
def Env := String → Option String

/-- `dict.update`: later overrides shadow the base environment. -/
def applyOverrides (parent : Env) (overrides : List (String × String)) : Env :=
  fun k =>
    match overrides.lookup k with
    | some v => some v
    | none => parent k

/-- The environment construction in `AFBenchRunner._run_command`:
`cmd_env = os.environ.copy()`, then `cmd_env.update(env)` when an override
map is passed, then the two profiling variables when profiling mode is on. -/
def build_cmd_env (parent : Env) (env : Option (List (String × String)))
    (profiling_mode : Bool) (profiling_tool : String) : Env :=
  let e1 :=
    match env with
    | some overrides => applyOverrides parent overrides
    | none => parent
  if profiling_mode then
    applyOverrides e1
      [("PROFILING_ENABLED", "true"), ("PROFILING_TOOL", profiling_tool)]
  else e1

/-- Result of `subprocess.run` on normal completion. -/
structure CompletedProcess where
  returncode : ℤ
  stdout : String
  stderr : String
  deriving Repr, DecidableEq

/-- The exception `subprocess.run` raises when the timeout elapses. -/
inductive SubprocessExn where
  | timeoutExpired
  deriving Repr, DecidableEq

/-- Behaviour of one external process under the given timeout: it either
completes (with exit code and captured output) or runs past the timeout. -/
inductive ProcBehavior where
  | completes (returncode : ℤ) (stdout stderr : String)
  | exceedsTimeout
  deriving Repr, DecidableEq

/-- The `subprocess.run(..., timeout=...)` call inside
`AFBenchRunner._run_command`: a completed process is returned, while a
process exceeding the timeout is killed and `subprocess.TimeoutExpired`
is raised; `_run_command` has no `try`/`except` around the call, so the
exception propagates to `_run_command`'s caller. -/
def run_command (behavior : ProcBehavior) :
    Except SubprocessExn CompletedProcess :=
  match behavior with
  | .completes rc out err => .ok ⟨rc, out, err⟩
  | .exceedsTimeout => .error .timeoutExpired

/-- The dictionary returned by `AFBenchRunner.run_msa_benchmark`. -/
structure BenchResult where
  input_file : String
  command : String
  duration : ℚ
  success : Bool
  stdout : Option String
  stderr : Option String
  run_purpose : String
  deriving Repr, DecidableEq

/-- `AFBenchRunner.run_msa_benchmark`: builds the command, runs it through
`_run_command` (whose `TimeoutExpired` propagates — there is no handler on
the way up), and packages a completed process into a result dictionary.
The wall-clock `duration` is passed in as an oracle. -/
def run_msa_benchmark (behavior : ProcBehavior)
    (script_path config_file : String) (thread_counts : Option (List ℕ))
    (output_dir : Option String) (input_file : String)
    (duration : ℚ) (run_purpose : String) :
    Except SubprocessExn BenchResult :=
  let cmd := build_msa_cmd script_path config_file thread_counts output_dir
    input_file
  match run_command behavior with
  | .error e => .error e
  | .ok r =>
    .ok { input_file := input_file
          command := String.intercalate " " cmd
          duration := duration
          success := r.returncode == 0
          stdout := if r.returncode == 0 then some r.stdout else none
          stderr := if r.returncode != 0 then some r.stderr else none
          run_purpose := run_purpose }

/-! ## Statistical aggregation
(src/track_progress.py and src/analyze_statistical_data.py) -/

/-- One persisted run row, as read back from the results CSV. -/
structure RunRow where
  status : String
  duration_sec : ℚ
  deriving Repr, DecidableEq

/-- Both aggregators keep only rows with `status == 'SUCCESS'`
(`parse_csv_results` in track_progress.py, the `df[df['status'] ==
'SUCCESS']` filter in analyze_statistical_data.py). -/
def successDurations (rows : List RunRow) : List ℚ :=
  (rows.filter (fun r => r.status == "SUCCESS")).map (fun r => r.duration_sec)

/-- `statistics.mean`. -/
def listMean (ts : List ℚ) : ℚ := ts.sum / (ts.length : ℚ)

/-- Insertion into a sorted list, for `sorted(...)`. -/
def insertSorted (x : ℚ) : List ℚ → List ℚ
  | [] => [x]
  | y :: ys => if x ≤ y then x :: y :: ys else y :: insertSorted x ys

/-- `sorted(timings)`. -/
def sortedQ (ts : List ℚ) : List ℚ := ts.foldr insertSorted []

/-- `statistics.median`: middle of the sorted data, or the average of the
two middle elements when the count is even. -/
def medianQ (ts : List ℚ) : ℚ :=
  let s := sortedQ ts
  let n := ts.length
  if n % 2 = 1 then s.getD (n / 2) 0
  else (s.getD (n / 2 - 1) 0 + s.getD (n / 2) 0) / 2

/-- `min(timings)` for a nonempty list. -/
def minQ : List ℚ → ℚ
  | [] => 0
  | x :: xs => xs.foldl min x

/-- `max(timings)` for a nonempty list. -/
def maxQ : List ℚ → ℚ
  | [] => 0
  | x :: xs => xs.foldl max x

/-- The sample variance with divisor `count − 1`, the quantity under the
square root in `statistics.stdev` and in pandas `std` (default
`ddof=1`). -/
def sampleVariance (ts : List ℚ) : ℚ :=
  ((ts.map (fun x => (x - listMean ts) ^ 2)).sum) / ((ts.length : ℚ) - 1)

/-- `statistics.stdev`: square root of the sample variance. -/
noncomputable def stdevQ (ts : List ℚ) : ℝ :=
  Real.sqrt ((sampleVariance ts : ℚ) : ℝ)

/-- The dictionary built by `track_progress.calculate_statistics`. -/
structure TrackStats where
  count : ℕ
  mean : ℚ
  median : ℚ
  stdev : ℝ
  min : ℚ
  max : ℚ
  cv_percent : ℝ

/-- `track_progress.calculate_statistics`: `{}` (here `none`) on an empty
list, otherwise count/mean/median/min/max with `stdev = statistics.stdev`
and `cv_percent = stdev/mean × 100` guarded by `len(timings) > 1`
(both are literally `0` for a single timing). -/
noncomputable def calculate_statistics (timings : List ℚ) : Option TrackStats :=
  if timings = [] then none
  else some
    { count := timings.length
      mean := listMean timings
      median := medianQ timings
      stdev := if 1 < timings.length then stdevQ timings else 0
      min := minQ timings
      max := maxQ timings
      cv_percent :=
        if 1 < timings.length then stdevQ timings / (listMean timings : ℝ) * 100
        else 0 }

/-- One row of the `stats` frame built by
`analyze_statistical_data.calculate_statistics` for a single
`(stage, input_file, threads)` group. pandas `std` (and hence the derived
`cv_percent`) is `NaN` for a one-element group (`ddof=1`); `NaN` is
modelled as `none`. -/
structure PandasGroupStats where
  count : ℕ
  mean : ℚ
  std : Option ℝ
  min : ℚ
  max : ℚ
  median : ℚ
  cv_percent : Option ℝ
  range_sec : ℚ

/-- The per-group aggregation of `analyze_statistical_data.py`:
`agg(['count','mean','std','min','max','median'])` over `duration_sec`,
then `cv_percent = std/mean × 100` and `range_sec = max − min`. -/
noncomputable def pandas_group_agg (durations : List ℚ) : PandasGroupStats :=
  let std : Option ℝ :=
    if 1 < durations.length then some (stdevQ durations) else none
  { count := durations.length
    mean := listMean durations
    std := std
    min := minQ durations
    max := maxQ durations
    median := medianQ durations
    cv_percent :=
      match std with
      | some s => some (s / (listMean durations : ℝ) * 100)
      | none => none
    range_sec := maxQ durations - minQ durations }

/-! ## Supporting lemmas -/

theorem estimate_of_lookup (fs : SizeOracle) (f : String) (v : ℤ)
    (h : MEMORY_REQUIREMENTS.lookup (pathStem f) = some v) :
    estimate_memory_requirement fs f = v := by
  simp [estimate_memory_requirement, h]

theorem estimate_of_size (fs : SizeOracle) (f : String) (n : ℕ)
    (h1 : MEMORY_REQUIREMENTS.lookup (pathStem f) = none)
    (h2 : fs f = some n) :
    estimate_memory_requirement fs f = pyInt ((n : ℚ) / (1024 * 1024) * 1000) := by
  simp [estimate_memory_requirement, h1, h2]

theorem estimate_of_stat_failure (fs : SizeOracle) (f : String)
    (h1 : MEMORY_REQUIREMENTS.lookup (pathStem f) = none)
    (h2 : fs f = none) :
    estimate_memory_requirement fs f = 8000 := by
  simp [estimate_memory_requirement, h1, h2]

theorem lookup_table_pos {s : String} {v : ℤ}
    (h : MEMORY_REQUIREMENTS.lookup s = some v) : 0 < v := by
  simp only [MEMORY_REQUIREMENTS, List.lookup] at h
  repeat' split at h
  all_goals simp_all
  all_goals omega

theorem estimate_nonneg (fs : SizeOracle) (f : String) :
    0 ≤ estimate_memory_requirement fs f := by
  cases h1 : MEMORY_REQUIREMENTS.lookup (pathStem f) with
  | some v =>
    rw [estimate_of_lookup fs f v h1]
    exact (lookup_table_pos h1).le
  | none =>
    cases h2 : fs f with
    | some n =>
      rw [estimate_of_size fs f n h1 h2]
      exact pyInt_nonneg (by positivity)
    | none =>
      rw [estimate_of_stat_failure fs f h1 h2]
      norm_num

theorem needs_unified_memory_snd (safety : ℚ) (gpu : ℕ) (fs : SizeOracle)
    (f : String) :
    (needs_unified_memory safety gpu fs f).2 =
      { gpu_memory_mb := (gpu : ℤ)
        required_memory_mb := estimate_memory_requirement fs f
        required_with_safety_mb :=
          pyInt ((estimate_memory_requirement fs f : ℚ) * safety)
        safety_factor := safety } := by
  unfold needs_unified_memory
  split <;> rfl

theorem needs_unified_memory_fst (safety : ℚ) (gpu : ℕ) (fs : SizeOracle)
    (f : String) :
    (needs_unified_memory safety gpu fs f).1 =
      if (gpu : ℤ) = 0 then false
      else decide ((gpu : ℤ) <
        pyInt ((estimate_memory_requirement fs f : ℚ) * safety)) := by
  unfold needs_unified_memory
  split <;> simp

/-! ## Claims -/

/-- C1, counterexample. With capacity 16000 MB, safety factor 1.2 and a
non-table input file of 13981713 bytes the estimator yields
`required_mb = 13334`, so `required_mb × safety_factor = 16000.8 > 16000`,
yet `needs_unified_memory` reports `false` (the code compares the
*truncated* `int(required * safety) = 16000`, which does not exceed the
capacity). This refutes the claimed iff. -/
theorem C1_counterexample :
    (needs_unified_memory (6/5) 16000 (fun _ => some 13981713) "big.json").1
        = false
    ∧ (0 : ℤ) < 16000
    ∧ ((estimate_memory_requirement (fun _ => some 13981713) "big.json" : ℚ)
        * (6/5) > 16000) := by
  have he : estimate_memory_requirement (fun _ => some 13981713) "big.json"
      = 13334 := by
    rw [estimate_of_size _ _ 13981713 (by decide) rfl]
    rw [pyInt_of_nonneg (by positivity)]
    norm_num [Int.floor_eq_iff]
  refine ⟨?_, by norm_num, ?_⟩
  · rw [needs_unified_memory_fst, he]
    rw [pyInt_of_nonneg (by norm_num)]
    norm_num [Int.floor_eq_iff]
  · rw [he]; norm_num

/-- C1, amended: `needs_fallback` is true iff the probed capacity is
positive and the *truncated* safety-adjusted requirement
`int(required_mb × safety_factor)` exceeds it, and is false whenever the
capacity is 0; the two quoted scenarios (capacity 16000, required 8000
resp. 24000, safety 1.2) give false resp. true. -/
theorem C1_needs_fallback_iff :
    (∀ (safety : ℚ) (gpu : ℕ) (fs : SizeOracle) (f : String),
      (needs_unified_memory safety gpu fs f).1 = true ↔
        0 < gpu ∧ (gpu : ℤ) <
          pyInt ((estimate_memory_requirement fs f : ℚ) * safety))
    ∧ (needs_unified_memory (6/5) 16000 (fun _ => none) "promo_data.json").1
        = false
    ∧ (needs_unified_memory (6/5) 16000 (fun _ => none)
        "6QNR_subset_data.json").1 = true := by
  refine ⟨?_, ?_, ?_⟩
  · intro safety gpu fs f
    rw [needs_unified_memory_fst]
    by_cases hg : (gpu : ℤ) = 0
    · have : gpu = 0 := by exact_mod_cast hg
      simp [hg, this]
    · have : 0 < gpu := Nat.pos_of_ne_zero (by exact_mod_cast hg)
      simp [hg, this]
  · rw [needs_unified_memory_fst,
      estimate_of_lookup _ _ 8000 (by decide),
      pyInt_of_nonneg (by norm_num)]
    norm_num
  · rw [needs_unified_memory_fst,
      estimate_of_lookup _ _ 24000 (by decide),
      pyInt_of_nonneg (by norm_num)]
    norm_num

/-- C4: the estimator returns the table value on a stem hit, otherwise the
file size in megabytes times 1000 rounded down, otherwise the fixed 8000 MB
fallback when the size cannot be read — it is a total function of the
oracle, so no case raises. -/
theorem C4_estimate_cases (fs : SizeOracle) (f : String) :
    (∀ v, MEMORY_REQUIREMENTS.lookup (pathStem f) = some v →
      estimate_memory_requirement fs f = v)
    ∧ (∀ n, MEMORY_REQUIREMENTS.lookup (pathStem f) = none → fs f = some n →
      estimate_memory_requirement fs f = ⌊(n : ℚ) * 1000 / 1048576⌋)
    ∧ (MEMORY_REQUIREMENTS.lookup (pathStem f) = none → fs f = none →
      estimate_memory_requirement fs f = 8000) := by
  refine ⟨fun v h => estimate_of_lookup fs f v h, fun n h1 h2 => ?_,
    fun h1 h2 => estimate_of_stat_failure fs f h1 h2⟩
  rw [estimate_of_size fs f n h1 h2, pyInt_of_nonneg (by positivity)]
  congr 1
  ring

/-- C4, witness: a concrete non-table input of 13632 bytes takes the
size-heuristic branch. -/
theorem C4_witness :
    MEMORY_REQUIREMENTS.lookup (pathStem "small.json") = none
    ∧ estimate_memory_requirement (fun _ => some 13632) "small.json"
        = ⌊(13632 : ℚ) * 1000 / 1048576⌋ :=
  ⟨by decide,
    (C4_estimate_cases (fun _ => some 13632) "small.json").2.1 13632
      (by decide) rfl⟩

/-- C5, counterexample. For a non-table input file of 13632 bytes the
estimator yields `required_mb = 13`; with safety factor 1.2 the profile
records `required_with_safety_mb = int(13 × 1.2) = 15`, while
`round(13 × 1.2) = 16` — the invariant with `round` fails because the code
truncates. -/
theorem C5_counterexample :
    (needs_unified_memory (6/5) 16000 (fun _ => some 13632)
        "small.json").2.required_memory_mb = 13
    ∧ (needs_unified_memory (6/5) 16000 (fun _ => some 13632)
        "small.json").2.required_with_safety_mb = 15
    ∧ (needs_unified_memory (6/5) 16000 (fun _ => some 13632)
        "small.json").2.required_with_safety_mb ≠
      round (((needs_unified_memory (6/5) 16000 (fun _ => some 13632)
        "small.json").2.required_memory_mb : ℚ) *
        (needs_unified_memory (6/5) 16000 (fun _ => some 13632)
        "small.json").2.safety_factor) := by
  have he : estimate_memory_requirement (fun _ => some 13632) "small.json"
      = 13 := by
    rw [estimate_of_size _ _ 13632 (by decide) rfl,
      pyInt_of_nonneg (by positivity)]
    norm_num [Int.floor_eq_iff]
  refine ⟨?_, ?_, ?_⟩
  · simp only [needs_unified_memory_snd, he]
  · simp only [needs_unified_memory_snd, he]
    norm_num [pyInt, Int.floor_eq_iff]
  · simp only [needs_unified_memory_snd, he]
    norm_num [pyInt, round_eq, Int.floor_eq_iff]

/-- C5, amended: for a nonnegative safety factor the profile satisfies
`required_with_safety_mb = ⌊required_mb × safety_factor⌋` (truncation
toward zero of the nonnegative product, i.e. Python `int(...)`, not
rounding to nearest). -/
theorem C5_required_with_safety_floor (safety : ℚ) (gpu : ℕ)
    (fs : SizeOracle) (f : String) (hs : 0 ≤ safety) :
    (needs_unified_memory safety gpu fs f).2.required_with_safety_mb =
      ⌊(estimate_memory_requirement fs f : ℚ) * safety⌋ := by
  rw [needs_unified_memory_snd]
  exact pyInt_of_nonneg
    (mul_nonneg (by exact_mod_cast estimate_nonneg fs f) hs)

/-- C5, witness: instantiated at safety factor 1.2, capacity 16000 and the
table input `1yy9_data.json`. -/
theorem C5_witness :
    (0 : ℚ) ≤ 6/5
    ∧ (needs_unified_memory (6/5) 16000 (fun _ => none)
        "1yy9_data.json").2.required_with_safety_mb =
      ⌊(estimate_memory_requirement (fun _ => none) "1yy9_data.json" : ℚ)
        * (6/5)⌋ :=
  ⟨by norm_num,
    C5_required_with_safety_floor (6/5) 16000 (fun _ => none)
      "1yy9_data.json" (by norm_num)⟩

/-- C7, counterexample. For the non-table input `empty_data.json` whose
on-disk file exists with size 0 bytes, the estimator returns
`int(0 × 1000) = 0`, which is not strictly positive — refuting
`required_mb > 0` for existing non-table files. -/
theorem C7_counterexample :
    estimate_memory_requirement (fun _ => some 0) "empty_data.json" = 0
    ∧ ¬ (0 < estimate_memory_requirement (fun _ => some 0)
          "empty_data.json") := by
  have h : estimate_memory_requirement (fun _ => some 0) "empty_data.json"
      = 0 := by
    rw [estimate_of_size _ _ 0 (by decide) rfl,
      pyInt_of_nonneg (by positivity)]
    norm_num
  exact ⟨h, by rw [h]; omega⟩

/-- C7, amended: the estimate is always nonnegative; it is strictly
positive on table hits, on stat failures (8000), and on existing files of
at least 1049 bytes; only an existing non-table file smaller than 1049
bytes can make it 0. -/
theorem C7_estimate_positivity (fs : SizeOracle) (f : String) :
    0 ≤ estimate_memory_requirement fs f
    ∧ (∀ v, MEMORY_REQUIREMENTS.lookup (pathStem f) = some v →
        0 < estimate_memory_requirement fs f)
    ∧ (fs f = none → 0 < estimate_memory_requirement fs f)
    ∧ (∀ n : ℕ, fs f = some n → 1049 ≤ n →
        0 < estimate_memory_requirement fs f) := by
  refine ⟨estimate_nonneg fs f, ?_, ?_, ?_⟩
  · intro v h
    rw [estimate_of_lookup fs f v h]
    exact lookup_table_pos h
  · intro h2
    cases h1 : MEMORY_REQUIREMENTS.lookup (pathStem f) with
    | some v =>
      rw [estimate_of_lookup fs f v h1]
      exact lookup_table_pos h1
    | none =>
      rw [estimate_of_stat_failure fs f h1 h2]
      omega
  · intro n h2 hn
    cases h1 : MEMORY_REQUIREMENTS.lookup (pathStem f) with
    | some v =>
      rw [estimate_of_lookup fs f v h1]
      exact lookup_table_pos h1
    | none =>
      rw [estimate_of_size fs f n h1 h2, pyInt_of_nonneg (by positivity)]
      have h1049 : (1049 : ℚ) ≤ (n : ℚ) := by exact_mod_cast hn
      have : (1 : ℤ) ≤ ⌊(n : ℚ) / (1024 * 1024) * 1000⌋ := by
        apply Int.le_floor.mpr
        push_cast
        rw [div_mul_eq_mul_div, le_div_iff₀ (by norm_num)]
        nlinarith
      omega

/-- C7, witness: a concrete 2048-byte non-table file gives a positive
estimate. -/
theorem C7_witness :
    (1049 : ℕ) ≤ 2048
    ∧ 0 < estimate_memory_requirement (fun _ => some 2048) "regular.json" :=
  ⟨by norm_num,
    (C7_estimate_positivity (fun _ => some 2048) "regular.json").2.2.2 2048
      rfl (by norm_num)⟩

/-- C9: the OOM detector answers true on any captured text containing any
of the fixed signature substrings — `"CUDA out of memory"` is one of them —
and false on any text containing none of them. -/
theorem C9_oom_detector (content : String) :
    ("CUDA out of memory" ∈ oom_patterns)
    ∧ (∀ p ∈ oom_patterns, strContains content p = true →
      check_oom_content content = true)
    ∧ ((∀ p ∈ oom_patterns, strContains content p = false) →
      check_oom_content content = false) := by
  refine ⟨by decide, ?_, ?_⟩
  · intro p hp h
    apply List.any_eq_true.mpr
    exact ⟨p, hp, h⟩
  · intro h
    apply List.any_eq_false.mpr
    intro p hp
    simp [h p hp]

/-- C9, witness: a text containing the CUDA signature is flagged, as is a
text containing a different signature from the list; a text containing no
signature is not. -/
theorem C9_witness :
    check_oom_content "run 1: CUDA out of memory on device 0" = true
    ∧ check_oom_content "step 3: ResourceExhaustedError raised" = true
    ∧ check_oom_content "run 1:  on device 0" = false :=
  ⟨(C9_oom_detector "run 1: CUDA out of memory on device 0").2.1
      "CUDA out of memory" (by decide) (by decide),
    (C9_oom_detector "step 3: ResourceExhaustedError raised").2.1
      "ResourceExhaustedError" (by decide) (by decide),
    (C9_oom_detector "run 1:  on device 0").2.2 (by decide)⟩

/-- C10: when the log file cannot be opened or read (the read oracle
reports `IOError`, covering missing files and permission errors),
`check_oom_error` returns false instead of raising. -/
theorem C10_unreadable_log_not_oom (fs : ReadOracle) (log_file : String)
    (h : fs log_file = none) : check_oom_error fs log_file = false := by
  simp [check_oom_error, h]

/-- C10, witness: a concrete unreadable log. -/
theorem C10_witness :
    ((fun _ => none : ReadOracle) "missing.log" = none)
    ∧ check_oom_error (fun _ => none) "missing.log" = false :=
  ⟨rfl, C10_unreadable_log_not_oom (fun _ => none) "missing.log" rfl⟩

/-- C2, counterexample. A job invocation whose external process exceeds
the stage timeout makes `run_msa_benchmark` propagate
`subprocess.TimeoutExpired` (modelled as `Except.error .timeoutExpired`):
no structured result with a TIMEOUT status is returned, refuting the claim
that the Job Runner never surfaces a process-level failure by raising. -/
theorem C2_counterexample :
    run_msa_benchmark .exceedsTimeout "scripts/benchmark_msa_modular.sh"
      "myenv.config" none none "promo_data.json" 3600 "performance"
      = .error .timeoutExpired := rfl

/-- C2, amended: `run_msa_benchmark` yields the `TimeoutExpired` exception
exactly when the process exceeds its timeout (`_run_command` has no
handler, so the exception propagates to the caller), and for a completed
process it returns the structured result dictionary with
`success = (returncode == 0)` and stdout/stderr captured accordingly. -/
theorem C2_runner_result_vs_exception :
    (∀ (b : ProcBehavior) (sp cfg : String) (tc : Option (List ℕ))
      (od : Option String) (inp : String) (dur : ℚ) (purpose : String),
      run_msa_benchmark b sp cfg tc od inp dur purpose
          = .error .timeoutExpired
        ↔ b = .exceedsTimeout)
    ∧ (∀ (rc : ℤ) (out err sp cfg : String) (tc : Option (List ℕ))
      (od : Option String) (inp : String) (dur : ℚ) (purpose : String),
      run_msa_benchmark (.completes rc out err) sp cfg tc od inp dur purpose
        = .ok { input_file := inp
                command := String.intercalate " "
                  (build_msa_cmd sp cfg tc od inp)
                duration := dur
                success := rc == 0
                stdout := if rc == 0 then some out else none
                stderr := if rc != 0 then some err else none
                run_purpose := purpose }) := by
  constructor
  · intro b sp cfg tc od inp dur purpose
    cases b <;> simp [run_msa_benchmark, run_command]
  · intro rc out err sp cfg tc od inp dur purpose
    rfl

/-- Every script path `_get_script_path` can resolve for
`benchmark_inference.sh` ends in one of the two inference script names,
so it contains the substring `"inference"`. -/
theorem get_script_path_inference_contains
    (pathExists : String → Bool) (sd bd p : String)
    (h : get_script_path pathExists sd bd "benchmark_inference.sh" = some p) :
    strContains p "inference" = true := by
  have hjoin : ∀ d n : String, strContains n "inference" = true →
      strContains (joinPath d n) "inference" = true := by
    intro d n hn
    unfold strContains joinPath at *
    rw [String.data_append (d ++ "/") n]
    exact hasSub_append_right _ _ _ hn
  unfold get_script_path at h
  have hmap : script_mapping "benchmark_inference.sh"
      = some "benchmark_inference_modular.sh" := by decide
  rw [hmap] at h
  by_cases h1 : pathExists (joinPath sd "benchmark_inference_modular.sh")
  · simp only [h1, if_true] at h
    cases h
    exact hjoin sd _ (by decide)
  · simp only [h1, if_false, Bool.false_eq_true] at h
    by_cases h2 : pathExists (joinPath sd "benchmark_inference.sh")
    · simp only [h2, if_true] at h
      cases h
      exact hjoin sd _ (by decide)
    · simp only [h2, if_false, Bool.false_eq_true] at h
      by_cases h3 : pathExists (joinPath bd "benchmark_inference.sh")
      · simp only [h3, if_true] at h
        cases h
        exact hjoin bd _ (by decide)
      · simp [h3] at h

/-- C6, counterexample. An MSA-stage invocation (built by
`run_msa_benchmark`, not an inference job) whose input file name contains
the substring `"inference"` receives the 7200 s timeout instead of the
claimed 3600 s: the timeout depends on the argument strings, not on the
stage alone. -/
theorem C6_counterexample :
    timeout_seconds (build_msa_cmd "scripts/benchmark_msa_modular.sh"
      "myenv.config" none none "my_inference_case.json") = 7200 := by
  decide

/-- C6, amended: the timeout is 7200 s iff some element of the command
list contains the substring `"inference"`, else 3600 s. Inference-stage
invocations always get 7200 s because the resolved script name contains
`"inference"`; an MSA-stage invocation gets 3600 s only when none of its
arguments contains the substring. -/
theorem C6_timeout_by_substring :
    (∀ cmd : List String,
      timeout_seconds cmd =
        if cmd.any (fun arg => strContains arg "inference") then 7200
        else 3600)
    ∧ (∀ (pathExists : String → Bool) (sd bd p cfg : String)
      (tc : Option (List ℕ)) (nsys : Bool) (nm : Option ℕ)
      (od : Option String) (inp : String),
      get_script_path pathExists sd bd "benchmark_inference.sh" = some p →
      timeout_seconds (build_inference_cmd p cfg tc nsys nm od inp) = 7200)
    ∧ (∀ (sp cfg : String) (tc : Option (List ℕ)) (od : Option String)
      (inp : String),
      (∀ arg ∈ build_msa_cmd sp cfg tc od inp,
        strContains arg "inference" = false) →
      timeout_seconds (build_msa_cmd sp cfg tc od inp) = 3600) := by
  refine ⟨fun _ => rfl, ?_, ?_⟩
  · intro pathExists sd bd p cfg tc nsys nm od inp h
    have hp := get_script_path_inference_contains pathExists sd bd p h
    unfold timeout_seconds
    have : (build_inference_cmd p cfg tc nsys nm od inp).any
        (fun arg => strContains arg "inference") = true := by
      apply List.any_eq_true.mpr
      exact ⟨p, by simp [build_inference_cmd], hp⟩
    rw [this]
    rfl
  · intro sp cfg tc od inp h
    unfold timeout_seconds
    have : (build_msa_cmd sp cfg tc od inp).any
        (fun arg => strContains arg "inference") = false := by
      apply List.any_eq_false.mpr
      intro a ha
      simp [h a ha]
    rw [this]
    rfl

/-- C6, witness: a resolved inference script gets 7200 s; a fully
inference-free MSA command gets 3600 s. -/
theorem C6_witness :
    get_script_path (fun q => q == "scripts/benchmark_inference_modular.sh")
      "scripts" "." "benchmark_inference.sh"
      = some "scripts/benchmark_inference_modular.sh"
    ∧ timeout_seconds (build_inference_cmd
        "scripts/benchmark_inference_modular.sh" "myenv.config" none false
        none none "promo_data.json") = 7200
    ∧ timeout_seconds (build_msa_cmd "scripts/benchmark_msa_modular.sh"
        "myenv.config" none none "promo_data.json") = 3600 :=
  ⟨by decide,
    C6_timeout_by_substring.2.1
      (fun q => q == "scripts/benchmark_inference_modular.sh") "scripts" "."
      "scripts/benchmark_inference_modular.sh" "myenv.config" none false
      none none "promo_data.json" (by decide),
    C6_timeout_by_substring.2.2 "scripts/benchmark_msa_modular.sh"
      "myenv.config" none none "promo_data.json" (by decide)⟩

/-- C8, counterexample. With fallback memory mode requested *and*
profiling mode enabled, `_run_command` also writes `PROFILING_ENABLED`
into the child environment — a fourth altered variable, absent from the
parent environment and not among the three unified-memory overrides,
refuting "no ambient environment variable other than those three is
altered". -/
theorem C8_counterexample :
    build_cmd_env (fun _ => none) (some get_unified_memory_env) true "nsys"
      "PROFILING_ENABLED" = some "true"
    ∧ (fun _ => none : Env) "PROFILING_ENABLED" = none
    ∧ "PROFILING_ENABLED" ∉ get_unified_memory_env.map Prod.fst := by
  exact ⟨rfl, rfl, by decide⟩

/-- C8, amended: when profiling mode is disabled, a fallback-memory
invocation sets exactly the three recognized override variables to their
fixed values and leaves every other variable of the parent environment
unchanged (with profiling enabled, `PROFILING_ENABLED` and
`PROFILING_TOOL` are additionally set). -/
theorem C8_env_overrides (parent : Env) (tool k : String) :
    (k ∉ get_unified_memory_env.map Prod.fst →
      build_cmd_env parent (some get_unified_memory_env) false tool k
        = parent k)
    ∧ build_cmd_env parent (some get_unified_memory_env) false tool
        "XLA_PYTHON_CLIENT_PREALLOCATE" = some "false"
    ∧ build_cmd_env parent (some get_unified_memory_env) false tool
        "TF_FORCE_UNIFIED_MEMORY" = some "true"
    ∧ build_cmd_env parent (some get_unified_memory_env) false tool
        "XLA_CLIENT_MEM_FRACTION" = some "3.2" := by
  refine ⟨?_, rfl, rfl, rfl⟩
  intro hk
  simp only [get_unified_memory_env, List.map, List.mem_cons,
    List.not_mem_nil, or_false, not_or] at hk
  obtain ⟨h1, h2, h3⟩ := hk
  have b1 : (k == "XLA_PYTHON_CLIENT_PREALLOCATE") = false :=
    beq_eq_false_iff_ne.mpr h1
  have b2 : (k == "TF_FORCE_UNIFIED_MEMORY") = false :=
    beq_eq_false_iff_ne.mpr h2
  have b3 : (k == "XLA_CLIENT_MEM_FRACTION") = false :=
    beq_eq_false_iff_ne.mpr h3
  simp [build_cmd_env, applyOverrides, get_unified_memory_env, List.lookup,
    b1, b2, b3]

/-- C8, witness: an unrelated parent variable (`PATH`) survives the
fallback-memory override untouched. -/
theorem C8_witness :
    "PATH" ∉ get_unified_memory_env.map Prod.fst
    ∧ build_cmd_env (fun k => if k = "PATH" then some "/usr/bin" else none)
        (some get_unified_memory_env) false "" "PATH"
      = (fun k => if k = "PATH" then some "/usr/bin" else none : Env)
          "PATH" :=
  ⟨by decide,
    (C8_env_overrides (fun k => if k = "PATH" then some "/usr/bin" else none)
      "" "PATH").1 (by decide)⟩

theorem listMean_triple : listMean [10, 20, 30] = 20 := by
  simp [listMean]
  norm_num

theorem sampleVariance_triple : sampleVariance [10, 20, 30] = 100 := by
  simp [sampleVariance, listMean]
  norm_num

theorem stdevQ_triple : stdevQ [10, 20, 30] = 10 := by
  rw [stdevQ, sampleVariance_triple]
  rw [show ((100 : ℚ) : ℝ) = (10 : ℝ) ^ 2 by norm_num]
  exact Real.sqrt_sq (by norm_num)

theorem medianQ_triple : medianQ [10, 20, 30] = 20 := by
  norm_num [medianQ, sortedQ, insertSorted, List.getD]

theorem minQ_triple : minQ [10, 20, 30] = 10 := by
  norm_num [minQ, List.foldl, min_def]

theorem maxQ_triple : maxQ [10, 20, 30] = 30 := by
  norm_num [maxQ, List.foldl, max_def]

/-- C3, counterexample. For a group consisting of a single SUCCESS record,
the pandas-based aggregator of analyze_statistical_data.py produces
`std = NaN` (modelled as `none`, since pandas `std` uses `ddof=1`), not 0 —
so the claim that "the aggregator's stdev equals 0 when count == 1" fails
for this aggregator (track_progress.py does return 0 there, see the
amended theorem). -/
theorem C3_counterexample :
    (pandas_group_agg (successDurations
      [{ status := "SUCCESS", duration_sec := 10 }])).count = 1
    ∧ (pandas_group_agg (successDurations
      [{ status := "SUCCESS", duration_sec := 10 }])).std = none
    ∧ (pandas_group_agg (successDurations
      [{ status := "SUCCESS", duration_sec := 10 }])).std ≠ some 0 := by
  refine ⟨rfl, rfl, ?_⟩
  intro h
  simp [pandas_group_agg, successDurations] at h

/-- C3, amended: over the SUCCESS durations of a group, both aggregators
use the sample standard deviation (divisor count−1) and
`cv_percent = stdev/mean × 100` when count > 1; at count == 1
track_progress.py's `calculate_statistics` yields `stdev = 0` and
`cv_percent = 0` while the pandas aggregator yields NaN for both; the
scenario [10, 20, 30] gives mean = 20, stdev = 10, cv = 50 %, median = 20
and range = 20. -/
theorem C3_aggregator_stats :
    (∀ ts : List ℚ, 1 < ts.length →
      ∃ s, calculate_statistics ts = some s
        ∧ s.stdev = Real.sqrt ((sampleVariance ts : ℚ) : ℝ)
        ∧ s.cv_percent = s.stdev / ((listMean ts : ℚ) : ℝ) * 100
        ∧ (pandas_group_agg ts).std = some s.stdev)
    ∧ (∀ t : ℚ, ∃ s, calculate_statistics [t] = some s
        ∧ s.stdev = 0 ∧ s.cv_percent = 0)
    ∧ (∀ t : ℚ, (pandas_group_agg [t]).std = none
        ∧ (pandas_group_agg [t]).cv_percent = none)
    ∧ (∃ s, calculate_statistics [10, 20, 30] = some s
        ∧ s.mean = 20 ∧ s.stdev = 10 ∧ s.cv_percent = 50 ∧ s.median = 20
        ∧ s.max - s.min = 20)
    ∧ (pandas_group_agg [10, 20, 30]).range_sec = 20 := by
  refine ⟨?_, ?_, ?_, ?_, ?_⟩
  · intro ts h
    have hne : ts ≠ [] := by
      intro e
      rw [e] at h
      simp at h
    refine ⟨⟨ts.length, listMean ts, medianQ ts, stdevQ ts, minQ ts,
      maxQ ts, stdevQ ts / ((listMean ts : ℚ) : ℝ) * 100⟩,
      ?_, rfl, rfl, ?_⟩
    · simp [calculate_statistics, hne, h]
    · simp [pandas_group_agg, h]
  · intro t
    refine ⟨⟨1, listMean [t], medianQ [t], 0, minQ [t], maxQ [t], 0⟩,
      ?_, rfl, rfl⟩
    simp [calculate_statistics]
  · intro t
    exact ⟨by simp [pandas_group_agg], by simp [pandas_group_agg]⟩
  · refine ⟨⟨3, 20, 20, 10, 10, 30, 50⟩, ?_, rfl, rfl, rfl, rfl,
      by norm_num⟩
    simp [calculate_statistics, listMean_triple, medianQ_triple,
      stdevQ_triple, minQ_triple, maxQ_triple]
    norm_num
  · simp [pandas_group_agg, minQ_triple, maxQ_triple]
    norm_num

/-- C3, witness: the count > 1 branch instantiated at the concrete group
[10, 20]. -/
theorem C3_witness :
    1 < ([10, 20] : List ℚ).length
    ∧ ∃ s, calculate_statistics [10, 20] = some s
        ∧ s.stdev = Real.sqrt ((sampleVariance [10, 20] : ℚ) : ℝ)
        ∧ s.cv_percent = s.stdev / ((listMean [10, 20] : ℚ) : ℝ) * 100
        ∧ (pandas_group_agg [10, 20]).std = some s.stdev :=
  ⟨by norm_num, C3_aggregator_stats.1 [10, 20] (by norm_num)⟩

end AFSysBench
